import Mathlib

/-!
QR Invoice Import Tool: the form controller.

A shallow embedding of `qr_invoice_import_tool.js`, the client script of the
"QR Invoice Import Tool" form.  Every handler of the script is a function from
the form state (and the event payload) to an `Outcome`: the new form state, the
framework calls it made in order, and the error it threw, if any.

The script runs inside the Frappe form framework, which is not part of the
repository.  The framework operations the script calls (`frm.set_value`,
`frm.add_child`, `frappe.model.set_value`, `frm.set_df_property`, ...) are
given their documented effect on the form document; every one of them is also
recorded in the trace, so that the order of calls can be stated.  A child row
is addressed the way the script addresses it, by the doctype and name it
carries at the time of the call, through the registry of the framework.
-/

namespace QRInvoiceImportTool

/-! ## JavaScript values -/

/-- The JavaScript values that reach the script: the content of the form
document and the decoded JSON of remote responses.  Numbers are modelled as
integers.  An object is represented by its own properties in enumeration
order, that is, in the order `Object.entries` yields them. -/
inductive Val where
  | undefined : Val
  | null : Val
  | bool (b : Bool) : Val
  | num (n : Int) : Val
  | str (s : String) : Val
  | arr (items : List Val) : Val
  | obj (props : List (String × Val)) : Val

/-- The property list of an object. -/
abbrev Obj := List (String × Val)

/-- JavaScript truthiness (`if (v)`): `undefined`, `null`, `false`, `0` and
the empty string are falsy; every object and array is truthy. -/
def truthy : Val → Bool
  | .undefined => false
  | .null => false
  | .bool b => b
  | .num n => n != 0
  | .str s => s != ""
  | .arr _ => true
  | .obj _ => true

/-- Reading `o[k]` on a property list: the value bound to `k`, `undefined`
when there is none. -/
def getField : Obj → String → Val
  | [], _ => .undefined
  | (k, v) :: rest, key => if k = key then v else getField rest key

/-- Assigning `o[k] = v` on a property list: replaces the value of an existing
property, adds the property otherwise. -/
def setField : Obj → String → Val → Obj
  | [], key, val => [(key, val)]
  | (k, v) :: rest, key, val =>
    if k = key then (k, val) :: rest else (k, v) :: setField rest key val

/-- The names of the properties of an object. -/
def keys (o : Obj) : List String := o.map Prod.fst

/-- Optional-chaining read `v?.k`, which is also what the plain read `v.k`
gives on a value that is neither `undefined` nor `null`: the property of an
object, `undefined` on anything else.  (The script only reads the names
`message`, `invoice_details` and `default_expense_account`, none of which is a
built-in property of a string, number, boolean or array.) -/
def optProp : Val → String → Val
  | .obj o, k => getField o k
  | _, _ => .undefined

/-- Plain read `v.k`: throws a `TypeError` on `undefined` and `null`. -/
def readProp : Val → String → Except String Val
  | .undefined, _ => .error "TypeError"
  | .null, _ => .error "TypeError"
  | v, k => .ok (optProp v k)

mutual
/-- The string a value is coerced to when it is used as a property key, as in
`locals[doctype][name]`. -/
def toKey : Val → String
  | .undefined => "undefined"
  | .null => "null"
  | .bool b => if b then "true" else "false"
  | .num n => toString n
  | .str s => s
  | .arr xs => joinKeys "" xs
  | .obj _ => "[object Object]"
termination_by structural v => v
/-- The elements of an array joined by commas, each preceded by `sep`;
`undefined` and `null` elements give the empty string. -/
def joinKeys (sep : String) : List Val → String
  | [] => ""
  | .undefined :: rest => sep ++ joinKeys "," rest
  | .null :: rest => sep ++ joinKeys "," rest
  | x :: rest => sep ++ toKey x ++ joinKeys "," rest
termination_by structural l => l
end

/-- The entries `Object.entries(v)` enumerates; `none` when it throws a
`TypeError` (on `undefined` and `null`).  An array yields its elements under
their indices, a string its characters under their indices (one entry per
character), a number or boolean nothing. -/
def objectEntries : Val → Option (List (String × Val))
  | .undefined => none
  | .null => none
  | .bool _ => some []
  | .num _ => some []
  | .str s => some (s.toList.enum.map fun p => (toString p.1, Val.str (String.singleton p.2)))
  | .arr xs => some (xs.enum.map fun p => (toString p.1, p.2))
  | .obj o => some o

/-! ## Form state, framework calls and outcomes -/

/-- The form (`frm`): its document `frm.doc`, the field properties overridden
through `set_df_property` (keyed by child table, field name and property),
whether saving is disabled, and the label of the primary action installed. -/
structure Frm where
  doc : Obj
  docfields : List ((String × String × String) × Val)
  save_disabled : Bool
  primary_action : Option String

/-- The framework calls the script makes, with the arguments the script
passes. -/
inductive Call where
  | disable_save
  | set_primary_action (label : String)
  | set_df_property (fieldname property : String) (value docname : Val) (table_field : String)
  | frm_set_value (fieldname : String) (value : Val)
  | frm_call (method : String) (freeze : Bool) (freeze_message : String)
  | refresh_field (fieldname : String)
  | msgprint (message title : String)
  | scanner (dialog multiple : Bool)
  | frappe_call (method : String) (args : Obj)
  | add_child (table_field : String)
  | model_set_value (doctype name : Val) (fieldname : String) (value : Val)
  | db_get_value (doctype : String) (name : Val) (fields : List String)

/-- What running a handler gives: the form afterwards, the framework calls
made in order, and the error thrown, if any. -/
structure Outcome where
  frm : Frm
  trace : List Call
  error : Option String

/-- A step that succeeds. -/
def done (frm : Frm) (trace : List Call) : Outcome := ⟨frm, trace, none⟩

/-- A step that throws: the form keeps what was done to it before. -/
def throw (frm : Frm) (e : String) : Outcome := ⟨frm, [], some e⟩

/-- Sequencing of statements: the second runs on the form the first left,
unless the first threw. -/
def Outcome.andThen (o : Outcome) (k : Frm → Outcome) : Outcome :=
  match o.error with
  | some _ => o
  | none => ⟨(k o.frm).frm, o.trace ++ (k o.frm).trace, (k o.frm).error⟩

/-- The rows of the child collection `doc[table_field]`; a table field that
holds no array has no rows. -/
def childRows (doc : Obj) (table_field : String) : List Val :=
  match getField doc table_field with
  | .arr rows => rows
  | _ => []

/-- Setting a field of one row value. -/
def setRowField (fieldname : String) (value : Val) : Val → Val
  | .obj o => .obj (setField o fieldname value)
  | v => v

/-- Applies `f` to the element at position `i`. -/
def updateAt (f : Val → Val) : List Val → Nat → List Val
  | [], _ => []
  | x :: xs, 0 => f x :: xs
  | x :: xs, i + 1 => x :: updateAt f xs i

/-- Whether a call is a notice shown to the user (`frappe.msgprint`). -/
def Call.isNotice : Call → Bool
  | .msgprint _ _ => true
  | _ => false

/-- Whether a call is a remote key-value lookup (`frappe.db.get_value`). -/
def Call.isLookup : Call → Bool
  | .db_get_value _ _ _ => true
  | _ => false

/-- Whether a call is a remote procedure call (`frappe.call`, `frm.call`). -/
def Call.isRemoteCall : Call → Bool
  | .frappe_call _ _ => true
  | .frm_call _ _ _ => true
  | _ => false

/-- Whether a call changes a field property (`frm.set_df_property`). -/
def Call.isFieldPropertyChange : Call → Bool
  | .set_df_property _ _ _ _ _ => true
  | _ => false

/-- The notices a trace shows. -/
def notices (trace : List Call) : List Call := trace.filter Call.isNotice

/-- The rows of the 'invoices' child collection of a form. -/
def invoices (frm : Frm) : List Val := childRows frm.doc "invoices"

/-! ## Framework operations -/

/-- The framework's `frm.disable_save()`. -/
def frm_disable_save (frm : Frm) : Outcome :=
  done { frm with save_disabled := true } [Call.disable_save]

/-- The framework's `frm.page.set_primary_action(label, handler)`. -/
def page_set_primary_action (label : String) (frm : Frm) : Outcome :=
  done { frm with primary_action := some label } [Call.set_primary_action label]

/-- Overriding one property in the field-property table. -/
def setDocfield (dfs : List ((String × String × String) × Val)) (key : String × String × String)
    (value : Val) : List ((String × String × String) × Val) :=
  (key, value) :: dfs.filter fun p => p.1 ≠ key

/-- The overridden value of a field property, if there is one. -/
def getDocfield (dfs : List ((String × String × String) × Val)) (key : String × String × String) :
    Option Val :=
  match dfs.find? fun p => p.1 = key with
  | some p => some p.2
  | none => none

/-- The framework's `frm.set_df_property(fieldname, property, value, docname,
table_field)`: sets one property of a field of a child table. -/
def frm_set_df_property (fieldname property : String) (value docname : Val) (table_field : String)
    (frm : Frm) : Outcome :=
  done { frm with docfields := setDocfield frm.docfields (table_field, fieldname, property) value }
    [Call.set_df_property fieldname property value docname table_field]

/-- The framework's `frm.set_value(fieldname, value)`: assigns the field of
the form document. -/
def frm_set_value (fieldname : String) (value : Val) (frm : Frm) : Outcome :=
  done { frm with doc := setField frm.doc fieldname value } [Call.frm_set_value fieldname value]

/-- The framework's `frm.refresh_field(fieldname)`: redraws, the document is
not touched. -/
def frm_refresh_field (fieldname : String) (frm : Frm) : Outcome :=
  done frm [Call.refresh_field fieldname]

/-- The framework's `frappe.msgprint(message, title)`. -/
def msgprint (message title : String) (frm : Frm) : Outcome :=
  done frm [Call.msgprint message title]

/-- The framework's `frm.add_child(table_field)`: appends the row the
framework creates (`newRow`: its doctype, name, parent link, index and field
defaults) to the end of the child collection. -/
def frm_add_child (table_field : String) (newRow : Obj) (frm : Frm) : Outcome :=
  done { frm with doc := setField frm.doc table_field
                    (.arr (childRows frm.doc table_field ++ [.obj newRow])) }
    [Call.add_child table_field]

/-- The framework's registry of documents (`locals`), as far as the rows of
the 'invoices' collection go: the position in the collection of the row
registered under a doctype and a name.  A row is registered when it is
created, under the doctype and name it has then; assigning its `doctype` or
`name` property later does not move it.  Other documents are not modelled: a
call addressed to none of these rows changes no row. -/
abbrev Locals := List ((String × String) × Nat)

/-- The row registered under a doctype and a name, `locals[doctype][name]`. -/
def lookupLocals : Locals → String → String → Option Nat
  | [], _, _ => none
  | ((dt, nm), row) :: rest, doctype, name =>
    if dt = doctype ∧ nm = name then some row else lookupLocals rest doctype name

/-- Registering a new row under its doctype and name; it takes the place of
whatever was registered under them. -/
def registerRow (locals : Locals) (newRow : Obj) (row : Nat) : Locals :=
  ((toKey (getField newRow "doctype"), toKey (getField newRow "name")), row) :: locals

/-- Reading a property of the row at a position of 'invoices', as the script
reads `newRow.doctype` and `newRow.name` on the row object it holds. -/
def rowProp (frm : Frm) (row : Nat) (k : String) : Val :=
  match (invoices frm)[row]? with
  | some v => optProp v k
  | none => .undefined

/-- The framework's `frappe.model.set_value(doctype, name, fieldname, value)`:
assigns the field of the row registered under `(doctype, name)`; when no row
is registered under them, nothing is assigned. -/
def model_set_value (locals : Locals) (doctype name : Val) (fieldname : String) (value : Val)
    (frm : Frm) : Outcome :=
  match lookupLocals locals (toKey doctype) (toKey name) with
  | some row =>
    done { frm with doc := setField frm.doc "invoices"
                      (.arr (updateAt (setRowField fieldname value) (invoices frm) row)) }
      [Call.model_set_value doctype name fieldname value]
  | none => done frm [Call.model_set_value doctype name fieldname value]

/-- The loop `entries.forEach(([fieldname, value]) => body)`. -/
def forEach (body : String → Val → Frm → Outcome) : List (String × Val) → Frm → Outcome
  | [], frm => done frm []
  | (k, v) :: rest, frm => (body k v frm).andThen (forEach body rest)

/-! ## The script -/

/-- The click handler installed by `setupPrimaryAction` (lines 32-42): calls
the document method `make_invoices` with the busy overlay. -/
def primaryAction (frm : Frm) : Outcome :=
  done frm [Call.frm_call "make_invoices" true "Creating Purchase Invoices ..."]

/-- The `.then` handler of the `make_invoices` call (lines 43-52). -/
def primaryAction_then (response : Val) (frm : Frm) : Outcome :=
  match readProp response "message" with
  | .error e => throw frm e
  | .ok message =>
    if truthy message then
      (frm_set_value "invoices" (.arr []) frm).andThen fun frm =>
      (frm_refresh_field "invoices" frm).andThen fun frm =>
      msgprint "Purchase Invoices created successfully" "Success" frm
    else done frm []

/-- The function `setupPrimaryAction` (lines 31-54): installs the primary
action, whose handlers are `primaryAction` and `primaryAction_then`. -/
def setupPrimaryAction (frm : Frm) : Outcome :=
  page_set_primary_action "Create Invoices" frm

/-- The name of the remote procedure that parses a scanned code. -/
def process_qr_data : String :=
  "qr_invoice_import_tool.qr_invoice_import_tool.doctype.qr_invoice_import_tool.qr_invoice_import_tool.process_qr_data"

/-- The function `handleQRScan` up to the remote call (lines 64-74). -/
def handleQRScan (qrData : Val) (frm : Frm) : Outcome :=
  done frm [Call.frappe_call process_qr_data
    [("qr_data", qrData),
     ("company", getField frm.doc "company"),
     ("default_item", getField frm.doc "default_item"),
     ("default_expense_account", getField frm.doc "default_expense_account"),
     ("create_missing_supplier", getField frm.doc "create_missing_supplier")]]

/-- The body of the loop of the callback (line 81): the call
`frappe.model.set_value(newRow.doctype, newRow.name, fieldname, value)`, where
`newRow` is the row object at position `row` and its `doctype` and `name` are
read anew in every iteration. -/
def setNewRowValue (locals : Locals) (row : Nat) (fieldname : String) (value : Val)
    (frm : Frm) : Outcome :=
  model_set_value locals (rowProp frm row "doctype") (rowProp frm row "name") fieldname value frm

/-- The callback of the remote call of `handleQRScan` (lines 75-87).
`locals` is the registry of the framework when the callback runs and `newRow`
the row the framework creates, and registers, for `frm.add_child`. -/
def handleQRScan_callback (locals : Locals) (newRow : Obj) (response : Val) (frm : Frm) :
    Outcome :=
  if truthy (optProp response "message") then
    let invoice_details := optProp (optProp response "message") "invoice_details"
    (frm_add_child "invoices" newRow frm).andThen fun frm =>
    let row := (invoices frm).length - 1
    let locals := registerRow locals newRow row
    match objectEntries invoice_details with
    | none => throw frm "TypeError"
    | some entries =>
      (forEach (setNewRowValue locals row) entries frm).andThen fun frm =>
      (frm_refresh_field "invoices" frm).andThen fun frm =>
      msgprint "QR Invoice successfully imported" "Success" frm
  else done frm []

/-- The function `openQRCodeScanner` (lines 56-62): opens the modal,
single-shot scanner, whose `on_scan` handler is `handleQRScan`. -/
def openQRCodeScanner (frm : Frm) : Outcome :=
  done frm [Call.scanner true false]

/-- The function `fetchCompanyDefaults` up to the lookup (lines 91-95). -/
def fetchCompanyDefaults (company : Val) (frm : Frm) : Outcome :=
  done frm [Call.db_get_value "Company" company
    ["default_expense_account", "default_income_account"]]

/-- The callback of the lookup of `fetchCompanyDefaults` (lines 96-103). -/
def fetchCompanyDefaults_callback (values : Val) (frm : Frm) : Outcome :=
  if truthy values then
    frm_set_value "default_expense_account" (optProp values "default_expense_account") frm
  else done frm []

/-- The `refresh` handler (lines 5-24).  `defaultCompany` is what
`frappe.defaults.get_default('company')` returns.  The continuation of
`frm.set_value('company', ...)` is run in place: it starts the lookup once the
field is set. -/
def refresh (defaultCompany : Val) (frm : Frm) : Outcome :=
  (frm_disable_save frm).andThen fun frm =>
  (setupPrimaryAction frm).andThen fun frm =>
  (if truthy (getField frm.doc "create_missing_party") then
      frm_set_df_property "party" "fieldtype" (.str "Data") (getField frm.doc "name") "invoices" frm
    else done frm []).andThen fun frm =>
  if truthy defaultCompany then
    (frm_set_value "company" defaultCompany frm).andThen fun frm =>
    fetchCompanyDefaults defaultCompany frm
  else done frm []

/-- The `scan_qr_invoice` handler (lines 26-28). -/
def scan_qr_invoice (frm : Frm) : Outcome :=
  openQRCodeScanner frm

/-- The events the form controller handles. -/
inductive Event where
  | refresh (defaultCompany : Val)
  | companyDefaults (values : Val)
  | scanTrigger
  | scanDecoded (qrData : Val)
  | scanResponse (locals : Locals) (newRow : Obj) (response : Val)
  | primaryAction
  | primaryResponse (response : Val)

/-- One step of the form controller: the handler of the event. -/
def step : Event → Frm → Outcome
  | .refresh d, frm => refresh d frm
  | .companyDefaults values, frm => fetchCompanyDefaults_callback values frm
  | .scanTrigger, frm => scan_qr_invoice frm
  | .scanDecoded q, frm => handleQRScan q frm
  | .scanResponse locals newRow r, frm => handleQRScan_callback locals newRow r frm
  | .primaryAction, frm => primaryAction frm
  | .primaryResponse r, frm => primaryAction_then r frm

/-- The row the framework created with the entries assigned to it in order. -/
def importedRow (newRow : Obj) (entries : List (String × Val)) : Obj :=
  entries.foldl (fun row p => setField row p.1 p.2) newRow


/-! ## Property lists -/

theorem getField_setField_same (o : Obj) (k : String) (v : Val) :
    getField (setField o k v) k = v := by
  induction o with
  | nil => simp [setField, getField]
  | cons p rest ih =>
    obtain ⟨k', v'⟩ := p
    by_cases h : k' = k
    · simp [setField, getField, h]
    · simp [setField, getField, h, ih]

theorem getField_setField_ne (o : Obj) (k k' : String) (v : Val) (h : k' ≠ k) :
    getField (setField o k v) k' = getField o k' := by
  induction o with
  | nil => simp [setField, getField, Ne.symm h]
  | cons p rest ih =>
    obtain ⟨k₀, v₀⟩ := p
    by_cases h₀ : k₀ = k
    · subst h₀
      simp [setField, getField, Ne.symm h]
    · by_cases h₁ : k₀ = k'
      · subst h₁
        simp [setField, getField, h₀]
      · simp [setField, getField, h₀, h₁, ih]

theorem setField_setField_same (o : Obj) (k : String) (v w : Val) :
    setField (setField o k v) k w = setField o k w := by
  induction o with
  | nil => simp [setField]
  | cons p rest ih =>
    obtain ⟨k₀, v₀⟩ := p
    by_cases h₀ : k₀ = k
    · simp [setField, h₀]
    · simp [setField, h₀, ih]

theorem childRows_setField_same (doc : Obj) (t : String) (rows : List Val) :
    childRows (setField doc t (.arr rows)) t = rows := by
  simp [childRows, getField_setField_same]

theorem childRows_setField_ne (doc : Obj) (t k : String) (v : Val) (h : t ≠ k) :
    childRows (setField doc k v) t = childRows doc t := by
  simp [childRows, getField_setField_ne doc k t v h]

theorem updateAt_append_last (f : Val → Val) (xs : List Val) (r : Val) :
    updateAt f (xs ++ [r]) xs.length = xs ++ [f r] := by
  induction xs with
  | nil => simp [updateAt]
  | cons x xs ih => simp [updateAt, ih]

/-- The row built by a scan holds what an entry assigns when no later entry
has the same name. -/
theorem getField_importedRow_of_not_mem (es : List (String × Val)) (row : Obj) (k : String)
    (h : k ∉ keys es) : getField (importedRow row es) k = getField row k := by
  induction es generalizing row with
  | nil => simp [importedRow]
  | cons p rest ih =>
    obtain ⟨k₀, v₀⟩ := p
    simp only [keys, List.map_cons, List.mem_cons, not_or] at h
    have hrest : k ∉ keys rest := h.2
    have := ih (setField row k₀ v₀) hrest
    simp only [importedRow, List.foldl_cons] at this ⊢
    rw [this, getField_setField_ne row k₀ k v₀ h.1]

theorem getField_importedRow_of_mem (es : List (String × Val)) (row : Obj) (k : String) (v : Val)
    (hnd : (keys es).Nodup) (hmem : (k, v) ∈ es) : getField (importedRow row es) k = v := by
  induction es generalizing row with
  | nil => simp at hmem
  | cons p rest ih =>
    obtain ⟨k₀, v₀⟩ := p
    simp only [keys, List.map_cons, List.nodup_cons] at hnd
    rcases List.mem_cons.mp hmem with heq | hin
    · cases heq
      have := getField_importedRow_of_not_mem rest (setField row k v) k hnd.1
      simp only [importedRow, List.foldl_cons] at this ⊢
      rw [this, getField_setField_same]
    · have := ih (setField row k₀ v₀) hnd.2 hin
      simpa only [importedRow, List.foldl_cons] using this

/-! ## Outcomes -/

theorem done_andThen (frm : Frm) (tr : List Call) (k : Frm → Outcome) :
    (done frm tr).andThen k = ⟨(k frm).frm, tr ++ (k frm).trace, (k frm).error⟩ := rfl

theorem andThen_frm_of_keep (o : Outcome) (k : Frm → Outcome) (hk : ∀ frm, (k frm).frm = frm) :
    (o.andThen k).frm = o.frm := by
  unfold Outcome.andThen
  cases o.error with
  | none => exact hk o.frm
  | some _ => rfl

theorem updateAt_length (f : Val → Val) (xs : List Val) (i : Nat) :
    (updateAt f xs i).length = xs.length := by
  induction xs generalizing i with
  | nil => simp [updateAt]
  | cons x xs ih =>
    cases i with
    | zero => simp [updateAt]
    | succ i => simp [updateAt, ih]

theorem invoices_setField_invoices (frm : Frm) (rows : List Val) :
    invoices { frm with doc := setField frm.doc "invoices" (.arr rows) } = rows := by
  simp [invoices, childRows_setField_same]

/-! ## Addressing the new row -/

theorem lookupLocals_registerRow (locals : Locals) (newRow : Obj) (row : Nat) :
    lookupLocals (registerRow locals newRow row) (toKey (getField newRow "doctype"))
      (toKey (getField newRow "name")) = some row := by
  simp [registerRow, lookupLocals]

theorem rowProp_last (d : Obj) (xs : List Val) (r : Obj)
    (dfs : List ((String × String × String) × Val)) (sd : Bool) (pa : Option String)
    (k : String) :
    rowProp ⟨setField d "invoices" (.arr (xs ++ [.obj r])), dfs, sd, pa⟩ xs.length k =
      getField r k := by
  simp [rowProp, invoices, childRows_setField_same, optProp]

/-- One call of `frappe.model.set_value` keeps the number of rows and does
not throw, whatever row it addresses. -/
theorem model_set_value_length (locals : Locals) (doctype name : Val) (k : String) (v : Val)
    (frm : Frm) :
    (invoices (model_set_value locals doctype name k v frm).frm).length = (invoices frm).length ∧
    (model_set_value locals doctype name k v frm).error = none := by
  unfold model_set_value
  cases lookupLocals locals (toKey doctype) (toKey name) with
  | none => exact ⟨rfl, rfl⟩
  | some row =>
    refine ⟨?_, rfl⟩
    simp only [done]
    rw [invoices_setField_invoices, updateAt_length]

/-- The loop of the callback keeps the number of rows and does not throw,
whatever rows its calls address. -/
theorem forEach_setNewRowValue_length (locals : Locals) (row : Nat) (es : List (String × Val))
    (frm : Frm) :
    (invoices (forEach (setNewRowValue locals row) es frm).frm).length = (invoices frm).length ∧
    (forEach (setNewRowValue locals row) es frm).error = none := by
  induction es generalizing frm with
  | nil => exact ⟨rfl, rfl⟩
  | cons p rest ih =>
    obtain ⟨k, v⟩ := p
    have h₁ := model_set_value_length locals (rowProp frm row "doctype")
      (rowProp frm row "name") k v frm
    have h₂ := ih (setNewRowValue locals row k v frm).frm
    have he : (setNewRowValue locals row k v frm).error = none := h₁.2
    simp only [forEach, Outcome.andThen, he]
    exact ⟨h₂.1.trans h₁.1, h₂.2⟩

/-- Assigning entries none of which is named `doctype` or `name` to the last
row of the collection, registered under its doctype and name: every call
addresses that row, which ends up as `importedRow` builds it; the other rows
are not touched. -/
theorem forEach_setNewRowValue (locals : Locals) (es : List (String × Val)) (d : Obj)
    (xs : List Val) (row : Obj) (dfs : List ((String × String × String) × Val)) (sd : Bool)
    (pa : Option String)
    (hes : ∀ p ∈ es, p.1 ≠ "doctype" ∧ p.1 ≠ "name")
    (hreg : lookupLocals locals (toKey (getField row "doctype")) (toKey (getField row "name")) =
      some xs.length) :
    forEach (setNewRowValue locals xs.length) es
        ⟨setField d "invoices" (.arr (xs ++ [.obj row])), dfs, sd, pa⟩ =
      done ⟨setField d "invoices" (.arr (xs ++ [.obj (importedRow row es)])), dfs, sd, pa⟩
        (es.map fun p =>
          Call.model_set_value (getField row "doctype") (getField row "name") p.1 p.2) := by
  induction es generalizing row with
  | nil => simp [forEach, importedRow]
  | cons p rest ih =>
    obtain ⟨k, v⟩ := p
    have hk := hes (k, v) (List.mem_cons_self _ _)
    have hdt : getField (setField row k v) "doctype" = getField row "doctype" :=
      getField_setField_ne row k "doctype" v (Ne.symm hk.1)
    have hnm : getField (setField row k v) "name" = getField row "name" :=
      getField_setField_ne row k "name" v (Ne.symm hk.2)
    have hstep : setNewRowValue locals xs.length k v
        ⟨setField d "invoices" (.arr (xs ++ [.obj row])), dfs, sd, pa⟩ =
        done ⟨setField d "invoices" (.arr (xs ++ [.obj (setField row k v)])), dfs, sd, pa⟩
          [Call.model_set_value (getField row "doctype") (getField row "name") k v] := by
      simp [setNewRowValue, rowProp_last, model_set_value, hreg, invoices,
        childRows_setField_same, updateAt_append_last, setField_setField_same, setRowField]
    have hrest := ih (setField row k v) (fun p hp => hes p (List.mem_cons_of_mem _ hp))
      (by rw [hdt, hnm]; exact hreg)
    simp only [forEach, hstep, done_andThen, hrest, hdt, hnm]
    simp [done, importedRow]

/-- The callback of the scan on a response with a truthy message whose
`invoice_details` has entries, none named `doctype` or `name`: one row is
appended and built, the field is redrawn, and the success notice is shown. -/
theorem handleQRScan_callback_entries (locals : Locals) (newRow : Obj) (response : Val)
    (frm : Frm) (es : List (String × Val))
    (hm : truthy (optProp response "message") = true)
    (he : objectEntries (optProp (optProp response "message") "invoice_details") = some es)
    (hes : ∀ p ∈ es, p.1 ≠ "doctype" ∧ p.1 ≠ "name") :
    handleQRScan_callback locals newRow response frm =
      done { frm with doc := setField frm.doc "invoices"
                        (.arr (invoices frm ++ [.obj (importedRow newRow es)])) }
        (Call.add_child "invoices" ::
          (es.map fun p =>
            Call.model_set_value (getField newRow "doctype") (getField newRow "name") p.1 p.2) ++
          [Call.refresh_field "invoices",
           Call.msgprint "QR Invoice successfully imported" "Success"]) := by
  obtain ⟨d, dfs, sd, pa⟩ := frm
  simp only [handleQRScan_callback, hm, if_true, frm_add_child, done_andThen, he, invoices,
    childRows_setField_same]
  simp only [List.length_append, List.length_singleton, Nat.add_sub_cancel]
  rw [forEach_setNewRowValue _ es d _ newRow dfs sd pa hes (lookupLocals_registerRow _ _ _)]
  simp [done, Outcome.andThen, frm_refresh_field, msgprint]

/-- The callback of the scan on a response with a truthy message whose
`invoice_details` is `undefined` or `null`: the row is appended, then
`Object.entries` throws. -/
theorem handleQRScan_callback_throws (locals : Locals) (newRow : Obj) (response : Val)
    (frm : Frm)
    (hm : truthy (optProp response "message") = true)
    (he : objectEntries (optProp (optProp response "message") "invoice_details") = none) :
    handleQRScan_callback locals newRow response frm =
      ⟨{ frm with doc := setField frm.doc "invoices" (.arr (invoices frm ++ [.obj newRow])) },
        [Call.add_child "invoices"], some "TypeError"⟩ := by
  simp [handleQRScan_callback, hm, frm_add_child, done_andThen, he, throw, invoices]

theorem handleQRScan_callback_falsy (locals : Locals) (newRow : Obj) (response : Val)
    (frm : Frm) (hm : truthy (optProp response "message") = false) :
    handleQRScan_callback locals newRow response frm = done frm [] := by
  simp [handleQRScan_callback, hm]

/-- The callback of the scan on a response with a truthy message adds exactly
one to the number of rows, whatever `invoice_details` is. -/
theorem handleQRScan_callback_length (locals : Locals) (newRow : Obj) (response : Val)
    (frm : Frm) (hm : truthy (optProp response "message") = true) :
    (invoices (handleQRScan_callback locals newRow response frm).frm).length =
      (invoices frm).length + 1 := by
  cases he : objectEntries (optProp (optProp response "message") "invoice_details") with
  | none =>
    rw [handleQRScan_callback_throws locals newRow response frm hm he]
    simp [invoices_setField_invoices]
  | some es =>
    simp only [handleQRScan_callback, hm, if_true, frm_add_child, done_andThen, he]
    rw [andThen_frm_of_keep _ _ (fun _ => rfl), (forEach_setNewRowValue_length _ _ _ _).1,
      invoices_setField_invoices]
    simp [invoices]

theorem entries_not_address (es : List (String × Val)) (hdt : "doctype" ∉ keys es)
    (hnm : "name" ∉ keys es) : ∀ p ∈ es, p.1 ≠ "doctype" ∧ p.1 ≠ "name" := by
  intro p hp
  have hmem : p.1 ∈ keys es := List.mem_map_of_mem Prod.fst hp
  exact ⟨fun h => hdt (h ▸ hmem), fun h => hnm (h ▸ hmem)⟩

/-! ## The scan callback -/

/-- C1, as the code has it: on a scan response whose message is truthy and
carries an `invoice_details` map with no entry named `doctype` or `name` (the
two properties of the row by which `frappe.model.set_value` is addressed), the
scan callback appends exactly one row to 'invoices' (the length grows by
one), the new row holds every (fieldname, value) pair of `invoice_details`, no
error is raised, and after the row is built exactly one success notice is
shown, as the last call. -/
theorem scan_success_appends_one_row (locals : Locals) (frm : Frm) (newRow : Obj)
    (response : Val) (details : Obj)
    (hm : truthy (optProp response "message") = true)
    (hd : optProp (optProp response "message") "invoice_details" = Val.obj details)
    (hk : (keys details).Nodup)
    (hdt : "doctype" ∉ keys details) (hnm : "name" ∉ keys details) :
    (handleQRScan_callback locals newRow response frm).error = none ∧
    invoices (handleQRScan_callback locals newRow response frm).frm =
      invoices frm ++ [Val.obj (importedRow newRow details)] ∧
    (invoices (handleQRScan_callback locals newRow response frm).frm).length =
      (invoices frm).length + 1 ∧
    (∀ k v, (k, v) ∈ details → getField (importedRow newRow details) k = v) ∧
    (handleQRScan_callback locals newRow response frm).trace =
      Call.add_child "invoices" ::
        (details.map fun p =>
          Call.model_set_value (getField newRow "doctype") (getField newRow "name") p.1 p.2) ++
        [Call.refresh_field "invoices",
         Call.msgprint "QR Invoice successfully imported" "Success"] ∧
    notices (handleQRScan_callback locals newRow response frm).trace =
      [Call.msgprint "QR Invoice successfully imported" "Success"] := by
  have he : objectEntries (optProp (optProp response "message") "invoice_details") =
      some details := by rw [hd]; rfl
  rw [handleQRScan_callback_entries locals newRow response frm details hm he
    (entries_not_address details hdt hnm)]
  refine ⟨rfl, ?_, ?_, ?_, rfl, ?_⟩
  · simp [done, invoices, childRows_setField_same]
  · simp [done, invoices, childRows_setField_same]
  · intro k v hmem
    exact getField_importedRow_of_mem details newRow k v hk hmem
  · simp [done, notices, Call.isNotice, List.filter_cons, List.filter_append, List.filter_map]

/-- The example of the specification: a response carrying
`invoice_details = (supplier: "ACME", amount: 100)` on an empty form. -/
theorem scan_success_appends_one_row_witness :
    invoices (handleQRScan_callback [] [("doctype", .str "QR Invoice Import Item"), ("name", .str "new-qr-invoice-import-item-1")]
      (.obj [("message", .obj [("invoice_details",
        .obj [("supplier", .str "ACME"), ("amount", .num 100)])])])
      ⟨[], [], false, none⟩).frm =
      [Val.obj [("doctype", .str "QR Invoice Import Item"),
                ("name", .str "new-qr-invoice-import-item-1"),
                ("supplier", .str "ACME"), ("amount", .num 100)]] ∧
    notices (handleQRScan_callback [] [("doctype", .str "QR Invoice Import Item"), ("name", .str "new-qr-invoice-import-item-1")]
      (.obj [("message", .obj [("invoice_details",
        .obj [("supplier", .str "ACME"), ("amount", .num 100)])])])
      ⟨[], [], false, none⟩).trace =
      [Call.msgprint "QR Invoice successfully imported" "Success"] :=
  have h := scan_success_appends_one_row [] ⟨[], [], false, none⟩
    [("doctype", .str "QR Invoice Import Item"), ("name", .str "new-qr-invoice-import-item-1")]
    (.obj [("message", .obj [("invoice_details",
      .obj [("supplier", .str "ACME"), ("amount", .num 100)])])])
    [("supplier", .str "ACME"), ("amount", .num 100)] rfl rfl (by decide) (by decide) (by decide)
  ⟨h.2.1, h.2.2.2.2.2⟩

/-- C1 fails as stated: the response carrying
`invoice_details = (name: "INV-1", supplier: "ACME", amount: 100)` has a truthy
message and a map with distinct names, but after the entry `name` is assigned
the calls for `supplier` and `amount` are addressed to the name "INV-1", under
which no row is registered: the new row holds neither pair. -/
theorem scan_name_entry_leaves_fields_unset :
    truthy (optProp (.obj [("message", .obj [("invoice_details",
      .obj [("name", .str "INV-1"), ("supplier", .str "ACME"), ("amount", .num 100)])])])
      "message") = true ∧
    (keys [("name", .str "INV-1"), ("supplier", .str "ACME"), ("amount", .num 100)]).Nodup ∧
    invoices (handleQRScan_callback [] [("doctype", .str "QR Invoice Import Item"), ("name", .str "new-qr-invoice-import-item-1")]
      (.obj [("message", .obj [("invoice_details",
        .obj [("name", .str "INV-1"), ("supplier", .str "ACME"), ("amount", .num 100)])])])
      ⟨[], [], false, none⟩).frm =
      [Val.obj [("doctype", .str "QR Invoice Import Item"), ("name", .str "INV-1")]] ∧
    rowProp (handleQRScan_callback [] [("doctype", .str "QR Invoice Import Item"), ("name", .str "new-qr-invoice-import-item-1")]
      (.obj [("message", .obj [("invoice_details",
        .obj [("name", .str "INV-1"), ("supplier", .str "ACME"), ("amount", .num 100)])])])
      ⟨[], [], false, none⟩).frm 0 "supplier" = .undefined ∧
    rowProp (handleQRScan_callback [] [("doctype", .str "QR Invoice Import Item"), ("name", .str "new-qr-invoice-import-item-1")]
      (.obj [("message", .obj [("invoice_details",
        .obj [("name", .str "INV-1"), ("supplier", .str "ACME"), ("amount", .num 100)])])])
      ⟨[], [], false, none⟩).frm 0 "amount" = .undefined :=
  ⟨rfl, by decide, rfl, rfl, rfl⟩

/-- C3, as the code has it: two successful scan responses whose
`invoice_details` have no entry named `doctype` or `name`, handled one after
the other, leave the original collection followed by the row of the first and
then the row of the second: scan order is kept, handling the second response
does not modify the rows present (the row of the first included), and the
length grows by two. -/
theorem two_scans_append_in_order (locals₁ locals₂ : Locals) (frm : Frm) (row₁ row₂ : Obj)
    (r₁ r₂ : Val) (d₁ d₂ : Obj)
    (hm₁ : truthy (optProp r₁ "message") = true)
    (hd₁ : optProp (optProp r₁ "message") "invoice_details" = Val.obj d₁)
    (hdt₁ : "doctype" ∉ keys d₁) (hnm₁ : "name" ∉ keys d₁)
    (hm₂ : truthy (optProp r₂ "message") = true)
    (hd₂ : optProp (optProp r₂ "message") "invoice_details" = Val.obj d₂)
    (hdt₂ : "doctype" ∉ keys d₂) (hnm₂ : "name" ∉ keys d₂) :
    invoices (handleQRScan_callback locals₁ row₁ r₁ frm).frm =
      invoices frm ++ [Val.obj (importedRow row₁ d₁)] ∧
    invoices (handleQRScan_callback locals₂ row₂ r₂
        (handleQRScan_callback locals₁ row₁ r₁ frm).frm).frm =
      invoices (handleQRScan_callback locals₁ row₁ r₁ frm).frm ++
        [Val.obj (importedRow row₂ d₂)] ∧
    invoices (handleQRScan_callback locals₂ row₂ r₂
        (handleQRScan_callback locals₁ row₁ r₁ frm).frm).frm =
      invoices frm ++ [Val.obj (importedRow row₁ d₁), Val.obj (importedRow row₂ d₂)] ∧
    (invoices (handleQRScan_callback locals₂ row₂ r₂
        (handleQRScan_callback locals₁ row₁ r₁ frm).frm).frm).length =
      (invoices frm).length + 2 := by
  have he₁ : objectEntries (optProp (optProp r₁ "message") "invoice_details") = some d₁ := by
    rw [hd₁]; rfl
  have he₂ : objectEntries (optProp (optProp r₂ "message") "invoice_details") = some d₂ := by
    rw [hd₂]; rfl
  have h₁ : invoices (handleQRScan_callback locals₁ row₁ r₁ frm).frm =
      invoices frm ++ [Val.obj (importedRow row₁ d₁)] := by
    rw [handleQRScan_callback_entries locals₁ row₁ r₁ frm d₁ hm₁ he₁
      (entries_not_address d₁ hdt₁ hnm₁)]
    simp [done, invoices, childRows_setField_same]
  have h₂ : invoices (handleQRScan_callback locals₂ row₂ r₂
        (handleQRScan_callback locals₁ row₁ r₁ frm).frm).frm =
      invoices (handleQRScan_callback locals₁ row₁ r₁ frm).frm ++
        [Val.obj (importedRow row₂ d₂)] := by
    rw [handleQRScan_callback_entries locals₂ row₂ r₂ _ d₂ hm₂ he₂
      (entries_not_address d₂ hdt₂ hnm₂)]
    simp [done, invoices, childRows_setField_same]
  refine ⟨h₁, h₂, ?_, ?_⟩
  · rw [h₂, h₁]; simp
  · rw [h₂, h₁]; simp

/-- Two scans on an empty form: first "ACME", then "Globex"; the second runs
with the registry the first left. -/
theorem two_scans_append_in_order_witness :
    invoices (handleQRScan_callback (registerRow [] [("doctype", .str "QR Invoice Import Item"), ("name", .str "new-qr-invoice-import-item-1")] 0) [("doctype", .str "QR Invoice Import Item"), ("name", .str "new-qr-invoice-import-item-2")]
      (.obj [("message", .obj [("invoice_details", .obj [("supplier", .str "Globex")])])])
      (handleQRScan_callback [] [("doctype", .str "QR Invoice Import Item"), ("name", .str "new-qr-invoice-import-item-1")]
        (.obj [("message", .obj [("invoice_details", .obj [("supplier", .str "ACME")])])])
        ⟨[], [], false, none⟩).frm).frm =
      [Val.obj [("doctype", .str "QR Invoice Import Item"),
                ("name", .str "new-qr-invoice-import-item-1"), ("supplier", .str "ACME")],
       Val.obj [("doctype", .str "QR Invoice Import Item"),
                ("name", .str "new-qr-invoice-import-item-2"), ("supplier", .str "Globex")]] :=
  (two_scans_append_in_order [] (registerRow [] [("doctype", .str "QR Invoice Import Item"), ("name", .str "new-qr-invoice-import-item-1")] 0) ⟨[], [], false, none⟩ [("doctype", .str "QR Invoice Import Item"), ("name", .str "new-qr-invoice-import-item-1")] [("doctype", .str "QR Invoice Import Item"), ("name", .str "new-qr-invoice-import-item-2")]
    (.obj [("message", .obj [("invoice_details", .obj [("supplier", .str "ACME")])])])
    (.obj [("message", .obj [("invoice_details", .obj [("supplier", .str "Globex")])])])
    [("supplier", .str "ACME")] [("supplier", .str "Globex")]
    rfl rfl (by decide) (by decide) rfl rfl (by decide) (by decide)).2.2.1

/-- C3 fails as stated: after a first scan with `invoice_details =
(supplier: "ACME")`, a second successful scan with `invoice_details =
(name: "new-qr-invoice-import-item-1", supplier: "EVIL")`, the name being that
of the first row, renames the second row and then addresses the first row: the
supplier of the first row is overwritten and the second row gets none. -/
theorem second_scan_overwrites_first_row :
    rowProp (handleQRScan_callback [] [("doctype", .str "QR Invoice Import Item"), ("name", .str "new-qr-invoice-import-item-1")]
      (.obj [("message", .obj [("invoice_details", .obj [("supplier", .str "ACME")])])])
      ⟨[], [], false, none⟩).frm 0 "supplier" = .str "ACME" ∧
    truthy (optProp (.obj [("message", .obj [("invoice_details",
      .obj [("name", .str "new-qr-invoice-import-item-1"), ("supplier", .str "EVIL")])])])
      "message") = true ∧
    invoices (handleQRScan_callback (registerRow [] [("doctype", .str "QR Invoice Import Item"), ("name", .str "new-qr-invoice-import-item-1")] 0) [("doctype", .str "QR Invoice Import Item"), ("name", .str "new-qr-invoice-import-item-2")]
      (.obj [("message", .obj [("invoice_details",
        .obj [("name", .str "new-qr-invoice-import-item-1"), ("supplier", .str "EVIL")])])])
      (handleQRScan_callback [] [("doctype", .str "QR Invoice Import Item"), ("name", .str "new-qr-invoice-import-item-1")]
        (.obj [("message", .obj [("invoice_details", .obj [("supplier", .str "ACME")])])])
        ⟨[], [], false, none⟩).frm).frm =
      [Val.obj [("doctype", .str "QR Invoice Import Item"),
                ("name", .str "new-qr-invoice-import-item-1"), ("supplier", .str "EVIL")],
       Val.obj [("doctype", .str "QR Invoice Import Item"),
                ("name", .str "new-qr-invoice-import-item-1")]] :=
  ⟨rfl, rfl, rfl⟩

/-- C5, as the code has it: on a scan response that is absent or whose message
is falsy, the scan callback is a silent no-op: no error, the form (the
'invoices' collection and every other field) unchanged, no call made and so no
notice shown. -/
theorem scan_without_message_is_noop (locals : Locals) (frm : Frm) (newRow : Obj)
    (response : Val) (hm : truthy (optProp response "message") = false) :
    (handleQRScan_callback locals newRow response frm).error = none ∧
    (handleQRScan_callback locals newRow response frm).frm = frm ∧
    (handleQRScan_callback locals newRow response frm).trace = [] := by
  rw [handleQRScan_callback_falsy locals newRow response frm hm]
  exact ⟨rfl, rfl, rfl⟩

/-- An absent response on a form with one invoice row. -/
theorem scan_without_message_is_noop_witness :
    (handleQRScan_callback [] [] .undefined
      ⟨[("invoices", .arr [.obj [("supplier", .str "ACME")]])], [], false, none⟩).frm =
      ⟨[("invoices", .arr [.obj [("supplier", .str "ACME")]])], [], false, none⟩ :=
  (scan_without_message_is_noop []
    ⟨[("invoices", .arr [.obj [("supplier", .str "ACME")]])], [], false, none⟩ []
    .undefined rfl).2.1

/-- C5 fails as stated: on the response `(message: (other: 1))`, whose message
is truthy and carries no `invoice_details`, the scan callback is not a no-op:
it appends a row to the empty 'invoices' collection and then throws. -/
theorem scan_without_details_appends_and_throws :
    truthy (optProp (.obj [("message", .obj [("other", .num 1)])]) "message") = true ∧
    optProp (optProp (.obj [("message", .obj [("other", .num 1)])]) "message")
      "invoice_details" = .undefined ∧
    (handleQRScan_callback [] [] (.obj [("message", .obj [("other", .num 1)])])
      ⟨[], [], false, none⟩).error = some "TypeError" ∧
    invoices ⟨[], [], false, none⟩ = [] ∧
    invoices (handleQRScan_callback [] [] (.obj [("message", .obj [("other", .num 1)])])
      ⟨[], [], false, none⟩).frm = [Val.obj []] :=
  ⟨rfl, rfl, rfl, rfl, rfl⟩

/-! ## The primary action -/

/-- C2: the response handler of the primary action empties the 'invoices'
collection and shows exactly one success notice when the result (the message
of the response) is truthy; when the result is falsy or absent it leaves the
collection, and the whole form, unchanged and shows no notice. -/
theorem primaryAction_then_clears_on_truthy (frm : Frm) (response : Val) :
    (truthy (optProp response "message") = true →
      invoices (primaryAction_then response frm).frm = [] ∧
      notices (primaryAction_then response frm).trace =
        [Call.msgprint "Purchase Invoices created successfully" "Success"] ∧
      (primaryAction_then response frm).trace =
        [Call.frm_set_value "invoices" (.arr []), Call.refresh_field "invoices",
         Call.msgprint "Purchase Invoices created successfully" "Success"]) ∧
    (truthy (optProp response "message") = false →
      (primaryAction_then response frm).frm = frm ∧
      invoices (primaryAction_then response frm).frm = invoices frm ∧
      notices (primaryAction_then response frm).trace = []) := by
  have key : ∀ m, readProp response "message" = .ok m → m = optProp response "message" := by
    intro m h
    cases response <;> simp_all [readProp]
  constructor
  · intro hm
    cases hr : readProp response "message" with
    | error e => cases response <;> simp_all [readProp, optProp, truthy]
    | ok m =>
      have hm' : truthy m = true := by rw [key m hr]; exact hm
      simp [primaryAction_then, hr, hm', frm_set_value, frm_refresh_field, msgprint,
        Outcome.andThen, done, invoices, childRows_setField_same, notices, Call.isNotice]
  · intro hm
    cases hr : readProp response "message" with
    | error e => simp [primaryAction_then, hr, throw, notices]
    | ok m =>
      have hm' : truthy m = false := by rw [key m hr]; exact hm
      simp [primaryAction_then, hr, hm', done, notices]

/-- A truthy result on a form with one row, and an absent one. -/
theorem primaryAction_then_clears_on_truthy_witness :
    invoices (primaryAction_then (.obj [("message", .str "ok")])
      ⟨[("invoices", .arr [.obj [("supplier", .str "ACME")]])], [], true, none⟩).frm = [] ∧
    invoices (primaryAction_then (.obj [])
      ⟨[("invoices", .arr [.obj [("supplier", .str "ACME")]])], [], true, none⟩).frm =
      [.obj [("supplier", .str "ACME")]] :=
  ⟨((primaryAction_then_clears_on_truthy
      ⟨[("invoices", .arr [.obj [("supplier", .str "ACME")]])], [], true, none⟩
      (.obj [("message", .str "ok")])).1 rfl).1,
   ((primaryAction_then_clears_on_truthy
      ⟨[("invoices", .arr [.obj [("supplier", .str "ACME")]])], [], true, none⟩
      (.obj [])).2 rfl).2.1⟩

/-! ## The scan trigger -/

/-- C8: `handleQRScan` issues exactly one remote call, to `process_qr_data`,
with the arguments `qr_data` (the decoded text) and the four form values
`company`, `default_item`, `default_expense_account` and
`create_missing_supplier` as the form document holds them, and leaves the
form as it was. -/
theorem handleQRScan_issues_one_call (q : Val) (frm : Frm) :
    (handleQRScan q frm).trace =
      [Call.frappe_call process_qr_data
        [("qr_data", q),
         ("company", getField frm.doc "company"),
         ("default_item", getField frm.doc "default_item"),
         ("default_expense_account", getField frm.doc "default_expense_account"),
         ("create_missing_supplier", getField frm.doc "create_missing_supplier")]] ∧
    ((handleQRScan q frm).trace.filter Call.isRemoteCall).length = 1 ∧
    (handleQRScan q frm).frm = frm ∧
    (handleQRScan q frm).error = none :=
  ⟨rfl, rfl, rfl, rfl⟩

/-! ## The company defaults -/

/-- C9: the callback of the company-default lookup applies one of the two
fetched values: on a truthy result the form's `default_expense_account`
becomes the result's `default_expense_account` and every other field of the
document (`default_income_account`, `company`, the 'invoices' collection, ...)
and the rest of the form are unchanged; on a falsy result the whole form is
unchanged. -/
theorem fetchCompanyDefaults_callback_frame (values : Val) (frm : Frm) :
    (truthy values = true →
      getField (fetchCompanyDefaults_callback values frm).frm.doc "default_expense_account" =
        optProp values "default_expense_account" ∧
      (∀ k, k ≠ "default_expense_account" →
        getField (fetchCompanyDefaults_callback values frm).frm.doc k = getField frm.doc k) ∧
      invoices (fetchCompanyDefaults_callback values frm).frm = invoices frm ∧
      (fetchCompanyDefaults_callback values frm).frm.docfields = frm.docfields ∧
      (fetchCompanyDefaults_callback values frm).frm.save_disabled = frm.save_disabled ∧
      (fetchCompanyDefaults_callback values frm).frm.primary_action = frm.primary_action) ∧
    (truthy values = false → (fetchCompanyDefaults_callback values frm).frm = frm) := by
  constructor
  · intro hv
    have h : fetchCompanyDefaults_callback values frm =
        frm_set_value "default_expense_account" (optProp values "default_expense_account") frm := by
      simp [fetchCompanyDefaults_callback, hv]
    rw [h]
    refine ⟨getField_setField_same _ _ _, ?_, ?_, rfl, rfl, rfl⟩
    · intro k hk
      exact getField_setField_ne _ _ _ _ hk
    · exact childRows_setField_ne _ _ _ _ (by decide)
  · intro hv
    simp [fetchCompanyDefaults_callback, hv, done]

/-- A lookup result with both accounts, on a form that has a company and an
income account of its own. -/
theorem fetchCompanyDefaults_callback_frame_witness :
    getField (fetchCompanyDefaults_callback
      (.obj [("default_expense_account", .str "6000"), ("default_income_account", .str "3000")])
      ⟨[("company", .str "Centura"), ("default_income_account", .str "3400")], [], true,
        none⟩).frm.doc "default_expense_account" = .str "6000" ∧
    getField (fetchCompanyDefaults_callback
      (.obj [("default_expense_account", .str "6000"), ("default_income_account", .str "3000")])
      ⟨[("company", .str "Centura"), ("default_income_account", .str "3400")], [], true,
        none⟩).frm.doc "default_income_account" = .str "3400" ∧
    (fetchCompanyDefaults_callback .null
      ⟨[("company", .str "Centura")], [], true, none⟩).frm =
      ⟨[("company", .str "Centura")], [], true, none⟩ :=
  ⟨((fetchCompanyDefaults_callback_frame
      (.obj [("default_expense_account", .str "6000"), ("default_income_account", .str "3000")])
      ⟨[("company", .str "Centura"), ("default_income_account", .str "3400")], [], true,
        none⟩).1 rfl).1,
   ((fetchCompanyDefaults_callback_frame
      (.obj [("default_expense_account", .str "6000"), ("default_income_account", .str "3000")])
      ⟨[("company", .str "Centura"), ("default_income_account", .str "3400")], [], true,
        none⟩).1 rfl).2.1 "default_income_account" (by decide),
   (fetchCompanyDefaults_callback_frame .null
      ⟨[("company", .str "Centura")], [], true, none⟩).2 rfl⟩

/-- C10, as the code has it: the callback of the company-default lookup
raises no error; on a falsy result the form (its `default_expense_account`
included) is unchanged; on a truthy result the form's
`default_expense_account` is assigned the result's `default_expense_account`,
which is `undefined` when the result has none. -/
theorem fetchCompanyDefaults_callback_assigns (values : Val) (frm : Frm) :
    (fetchCompanyDefaults_callback values frm).error = none ∧
    (truthy values = false →
      getField (fetchCompanyDefaults_callback values frm).frm.doc "default_expense_account" =
        getField frm.doc "default_expense_account" ∧
      (fetchCompanyDefaults_callback values frm).frm = frm) ∧
    (truthy values = true →
      getField (fetchCompanyDefaults_callback values frm).frm.doc "default_expense_account" =
        optProp values "default_expense_account") := by
  refine ⟨?_, ?_, ?_⟩
  · cases hv : truthy values <;> simp [fetchCompanyDefaults_callback, hv, frm_set_value, done]
  · intro hv
    simp [fetchCompanyDefaults_callback, hv, done]
  · intro hv
    have h : fetchCompanyDefaults_callback values frm =
        frm_set_value "default_expense_account" (optProp values "default_expense_account") frm := by
      simp [fetchCompanyDefaults_callback, hv]
    rw [h]
    exact getField_setField_same _ _ _

/-- A result that is a map without `default_expense_account`: the field of the
form becomes `undefined`. -/
theorem fetchCompanyDefaults_callback_assigns_witness :
    getField (fetchCompanyDefaults_callback (.obj [("default_income_account", .str "3000")])
      ⟨[("default_expense_account", .str "6000")], [], true, none⟩).frm.doc
      "default_expense_account" = .undefined :=
  (fetchCompanyDefaults_callback_assigns (.obj [("default_income_account", .str "3000")])
    ⟨[("default_expense_account", .str "6000")], [], true, none⟩).2.2 rfl

/-- C10 fails as stated: the lookup result
`(default_expense_account: null, default_income_account: "3000")` provides no
`default_expense_account` value, and the callback does not leave the form's
`default_expense_account` ("6000") unchanged: it becomes `null`. -/
theorem fetchCompanyDefaults_callback_overwrites_with_empty :
    truthy (optProp (.obj [("default_expense_account", .null),
      ("default_income_account", .str "3000")]) "default_expense_account") = false ∧
    getField (⟨[("default_expense_account", .str "6000")], [], true, none⟩ : Frm).doc
      "default_expense_account" = .str "6000" ∧
    getField (fetchCompanyDefaults_callback
      (.obj [("default_expense_account", .null), ("default_income_account", .str "3000")])
      ⟨[("default_expense_account", .str "6000")], [], true, none⟩).frm.doc
      "default_expense_account" = .null ∧
    ¬ (getField (fetchCompanyDefaults_callback
      (.obj [("default_expense_account", .null), ("default_income_account", .str "3000")])
      ⟨[("default_expense_account", .str "6000")], [], true, none⟩).frm.doc
      "default_expense_account" =
      getField (⟨[("default_expense_account", .str "6000")], [], true, none⟩ : Frm).doc
        "default_expense_account") :=
  ⟨rfl, rfl, rfl, fun h => Val.noConfusion h⟩

/-! ## Refresh -/

/-- What `refresh` does, by the two conditions it tests. -/
theorem refresh_eq (d : Val) (frm : Frm) :
    refresh d frm =
      done
        { doc := if truthy d then setField frm.doc "company" d else frm.doc,
          docfields :=
            if truthy (getField frm.doc "create_missing_party") then
              setDocfield frm.docfields ("invoices", "party", "fieldtype") (.str "Data")
            else frm.docfields,
          save_disabled := true,
          primary_action := some "Create Invoices" }
        ([Call.disable_save, Call.set_primary_action "Create Invoices"] ++
          (if truthy (getField frm.doc "create_missing_party") then
            [Call.set_df_property "party" "fieldtype" (.str "Data") (getField frm.doc "name")
              "invoices"]
           else []) ++
          (if truthy d then
            [Call.frm_set_value "company" d,
             Call.db_get_value "Company" d ["default_expense_account", "default_income_account"]]
           else [])) := by
  cases hp : truthy (getField frm.doc "create_missing_party") <;> cases hd : truthy d <;>
    simp [refresh, hp, hd, frm_disable_save, setupPrimaryAction, page_set_primary_action,
      frm_set_df_property, frm_set_value, fetchCompanyDefaults, Outcome.andThen, done]

theorem getDocfield_setDocfield (dfs : List ((String × String × String) × Val))
    (key : String × String × String) (value : Val) :
    getDocfield (setDocfield dfs key value) key = some value := by
  simp [getDocfield, setDocfield]

/-- C6: the refresh handler sets the input type (`fieldtype`) of the field
'party' of the child table 'invoices' to 'Data' when the document's
`create_missing_party` flag is true, with one field-property change; when the
flag is false it issues no field-property change and every field property,
the input type of 'party' included, stays as it was. -/
theorem refresh_party_fieldtype (d : Val) (frm : Frm) :
    (truthy (getField frm.doc "create_missing_party") = true →
      getDocfield (refresh d frm).frm.docfields ("invoices", "party", "fieldtype") =
        some (.str "Data") ∧
      (refresh d frm).trace.filter Call.isFieldPropertyChange =
        [Call.set_df_property "party" "fieldtype" (.str "Data") (getField frm.doc "name")
          "invoices"]) ∧
    (truthy (getField frm.doc "create_missing_party") = false →
      (refresh d frm).frm.docfields = frm.docfields ∧
      getDocfield (refresh d frm).frm.docfields ("invoices", "party", "fieldtype") =
        getDocfield frm.docfields ("invoices", "party", "fieldtype") ∧
      (refresh d frm).trace.filter Call.isFieldPropertyChange = []) := by
  rw [refresh_eq]
  constructor
  · intro hp
    refine ⟨?_, ?_⟩
    · simp only [done, hp, if_true]
      exact getDocfield_setDocfield _ _ _
    · cases hd : truthy d <;> simp [done, hp, Call.isFieldPropertyChange]
  · intro hp
    cases hd : truthy d <;> simp [done, hp, Call.isFieldPropertyChange]

/-- A document with the flag set and 'party' a link field, and one without
the flag. -/
theorem refresh_party_fieldtype_witness :
    getDocfield (refresh .undefined
      ⟨[("create_missing_party", .num 1)],
        [(("invoices", "party", "fieldtype"), .str "Link")], false, none⟩).frm.docfields
      ("invoices", "party", "fieldtype") = some (.str "Data") ∧
    (refresh .undefined
      ⟨[("create_missing_party", .num 0)],
        [(("invoices", "party", "fieldtype"), .str "Link")], false, none⟩).frm.docfields =
      [(("invoices", "party", "fieldtype"), .str "Link")] :=
  ⟨((refresh_party_fieldtype .undefined
      ⟨[("create_missing_party", .num 1)],
        [(("invoices", "party", "fieldtype"), .str "Link")], false, none⟩).1 rfl).1,
   ((refresh_party_fieldtype .undefined
      ⟨[("create_missing_party", .num 0)],
        [(("invoices", "party", "fieldtype"), .str "Link")], false, none⟩).2 rfl).1⟩

/-- C7: with a default company `d` set (truthy), the refresh handler sets the
form's 'company' to `d`, whatever it was, and right after that issues the
account-default lookup `get_value('Company', d, [default_expense_account,
default_income_account])`, the only lookup of the handler; with no default
company it leaves the document unchanged and issues no lookup. -/
theorem refresh_sets_company_then_looks_up (d : Val) (frm : Frm) :
    (truthy d = true →
      getField (refresh d frm).frm.doc "company" = d ∧
      (refresh d frm).trace.filter Call.isLookup =
        [Call.db_get_value "Company" d ["default_expense_account", "default_income_account"]] ∧
      ∃ before, (refresh d frm).trace = before ++
        [Call.frm_set_value "company" d,
         Call.db_get_value "Company" d ["default_expense_account", "default_income_account"]]) ∧
    (truthy d = false →
      (refresh d frm).frm.doc = frm.doc ∧
      getField (refresh d frm).frm.doc "company" = getField frm.doc "company" ∧
      (refresh d frm).trace.filter Call.isLookup = []) := by
  rw [refresh_eq]
  constructor
  · intro hd
    refine ⟨?_, ?_, ?_⟩
    · simp only [done, hd, if_true]
      exact getField_setField_same _ _ _
    · cases hp : truthy (getField frm.doc "create_missing_party") <;>
        simp [done, hd, Call.isLookup]
    · refine ⟨[Call.disable_save, Call.set_primary_action "Create Invoices"] ++
        (if truthy (getField frm.doc "create_missing_party") then
          [Call.set_df_property "party" "fieldtype" (.str "Data") (getField frm.doc "name")
            "invoices"]
         else []), ?_⟩
      simp only [done, hd, if_true]
  · intro hd
    cases hp : truthy (getField frm.doc "create_missing_party") <;>
      simp [done, hd, Call.isLookup]

/-- A form whose company is "Old AG", refreshed with the default company
"Centura AG" and with none. -/
theorem refresh_sets_company_then_looks_up_witness :
    getField (refresh (.str "Centura AG")
      ⟨[("company", .str "Old AG")], [], false, none⟩).frm.doc "company" = .str "Centura AG" ∧
    (refresh (.str "Centura AG")
      ⟨[("company", .str "Old AG")], [], false, none⟩).trace.filter Call.isLookup =
      [Call.db_get_value "Company" (.str "Centura AG")
        ["default_expense_account", "default_income_account"]] ∧
    (refresh .undefined ⟨[("company", .str "Old AG")], [], false, none⟩).frm.doc =
      [("company", .str "Old AG")] :=
  ⟨((refresh_sets_company_then_looks_up (.str "Centura AG")
      ⟨[("company", .str "Old AG")], [], false, none⟩).1 rfl).1,
   ((refresh_sets_company_then_looks_up (.str "Centura AG")
      ⟨[("company", .str "Old AG")], [], false, none⟩).1 rfl).2.1,
   ((refresh_sets_company_then_looks_up .undefined
      ⟨[("company", .str "Old AG")], [], false, none⟩).2 rfl).1⟩

/-! ## The step relation -/

theorem invoices_refresh (d : Val) (frm : Frm) : invoices (refresh d frm).frm = invoices frm := by
  rw [refresh_eq]
  cases hd : truthy d
  · simp [done, invoices]
  · simp only [done, invoices, if_true]
    exact childRows_setField_ne _ _ _ _ (by decide)

theorem invoices_fetchCompanyDefaults_callback (values : Val) (frm : Frm) :
    invoices (fetchCompanyDefaults_callback values frm).frm = invoices frm := by
  cases hv : truthy values
  · simp [fetchCompanyDefaults_callback, hv, done]
  · simp only [fetchCompanyDefaults_callback, hv, if_true, frm_set_value, done, invoices]
    exact childRows_setField_ne _ _ _ _ (by decide)

theorem truthy_message_of_readProp (response m : Val)
    (h : readProp response "message" = .ok m) : m = optProp response "message" := by
  cases response <;> simp_all [readProp]

theorem invoices_primaryAction_then (response : Val) (frm : Frm) :
    invoices (primaryAction_then response frm).frm =
      if truthy (optProp response "message") then [] else invoices frm := by
  cases hr : readProp response "message" with
  | error e =>
    have : truthy (optProp response "message") = false := by
      cases response <;> simp_all [readProp, optProp, truthy]
    simp [primaryAction_then, hr, throw, this]
  | ok m =>
    have hm := truthy_message_of_readProp response m hr
    subst hm
    cases ht : truthy (optProp response "message")
    · simp [primaryAction_then, hr, ht, done]
    · simp [primaryAction_then, hr, ht, frm_set_value, frm_refresh_field, msgprint,
        Outcome.andThen, done, invoices, childRows_setField_same]

/-- C4: over the steps of the form controller, the 'invoices' collection
changes in two ways only: it is emptied by the primary-action response handler
on a truthy result, and it gets one row more through the scan response
callback on a truthy response; every other step leaves it unchanged.  So a
step that removes rows is the former, and a step that appends a row is the
latter. -/
theorem invoices_change_only_by_clear_or_append (e : Event) (frm : Frm) :
    (invoices (step e frm).frm = invoices frm ∨
     (∃ r, e = .primaryResponse r ∧ truthy (optProp r "message") = true ∧
        invoices (step e frm).frm = []) ∨
     (∃ locals newRow r, e = .scanResponse locals newRow r ∧
        truthy (optProp r "message") = true ∧
        (invoices (step e frm).frm).length = (invoices frm).length + 1)) ∧
    ((invoices (step e frm).frm).length < (invoices frm).length →
      ∃ r, e = .primaryResponse r ∧ truthy (optProp r "message") = true) ∧
    ((invoices frm).length < (invoices (step e frm).frm).length →
      ∃ locals newRow r, e = .scanResponse locals newRow r ∧
        truthy (optProp r "message") = true) ∧
    ((∀ r, e ≠ .primaryResponse r) → (∀ locals newRow r, e ≠ .scanResponse locals newRow r) →
      invoices (step e frm).frm = invoices frm) := by
  have main : invoices (step e frm).frm = invoices frm ∨
     (∃ r, e = .primaryResponse r ∧ truthy (optProp r "message") = true ∧
        invoices (step e frm).frm = []) ∨
     (∃ locals newRow r, e = .scanResponse locals newRow r ∧
        truthy (optProp r "message") = true ∧
        (invoices (step e frm).frm).length = (invoices frm).length + 1) := by
    cases e with
    | refresh d => exact Or.inl (invoices_refresh d frm)
    | companyDefaults values => exact Or.inl (invoices_fetchCompanyDefaults_callback values frm)
    | scanTrigger => exact Or.inl rfl
    | scanDecoded q => exact Or.inl rfl
    | scanResponse locals newRow r =>
      cases hm : truthy (optProp r "message")
      · left
        show invoices (handleQRScan_callback locals newRow r frm).frm = invoices frm
        rw [handleQRScan_callback_falsy locals newRow r frm hm]
        rfl
      · exact Or.inr (Or.inr ⟨locals, newRow, r, rfl, hm,
          handleQRScan_callback_length locals newRow r frm hm⟩)
    | primaryAction => exact Or.inl rfl
    | primaryResponse r =>
      have h := invoices_primaryAction_then r frm
      cases hm : truthy (optProp r "message")
      · left
        simpa [step, hm] using h
      · right; left
        exact ⟨r, rfl, hm, by simpa [step, hm] using h⟩
  refine ⟨main, ?_, ?_, ?_⟩
  · intro hlt
    rcases main with h | ⟨r, he, hm, _⟩ | ⟨_, _, _, _, _, h⟩
    · rw [h] at hlt; exact absurd hlt (Nat.lt_irrefl _)
    · exact ⟨r, he, hm⟩
    · rw [h] at hlt; simp at hlt
  · intro hlt
    rcases main with h | ⟨_, _, _, h⟩ | ⟨locals, newRow, r, he, hm, _⟩
    · rw [h] at hlt; exact absurd hlt (Nat.lt_irrefl _)
    · rw [h] at hlt; simp at hlt
    · exact ⟨locals, newRow, r, he, hm⟩
  · intro hp hs
    rcases main with h | ⟨r, he, _⟩ | ⟨locals, newRow, r, he, _⟩
    · exact h
    · exact absurd he (hp r)
    · exact absurd he (hs locals newRow r)

/-- A refresh step on a form with one row leaves the row; the primary-action
response `(message: true)` and no other kind of step removes it. -/
theorem invoices_change_only_by_clear_or_append_witness :
    invoices (step (.refresh (.str "Centura AG"))
      ⟨[("invoices", .arr [.obj [("supplier", .str "ACME")]])], [], false, none⟩).frm =
      [.obj [("supplier", .str "ACME")]] ∧
    ∃ r, Event.primaryResponse (.obj [("message", .bool true)]) = Event.primaryResponse r ∧
      truthy (optProp r "message") = true :=
  ⟨(invoices_change_only_by_clear_or_append (.refresh (.str "Centura AG"))
      ⟨[("invoices", .arr [.obj [("supplier", .str "ACME")]])], [], false, none⟩).2.2.2
      (fun _ h => Event.noConfusion h) (fun _ _ _ h => Event.noConfusion h),
   (invoices_change_only_by_clear_or_append (.primaryResponse (.obj [("message", .bool true)]))
      ⟨[("invoices", .arr [.obj [("supplier", .str "ACME")]])], [], false, none⟩).2.1
      (by decide)⟩

end QRInvoiceImportTool
